import Mathlib

/-!
Verification of the code-testing harness in
`src/backend/app/apis/code_testing/__init__.py`.

The endpoint `test_javascript_code` receives a `CodeTestRequest`, and for each
test case builds a JavaScript program
`const input = json.dumps(test_case.input); (function() \x7b try \x7b <code>;
const result = JSON.stringify(eval(input)); return \x7bsuccess: true, result\x7d \x7d
catch (error) \x7b return \x7bsuccess: false, error: error.toString()\x7d \x7d \x7d)()`,
runs it through `execjs`, parses the JSON the wrapper returns, strips one pair of
surrounding quote characters from the serialized value, and compares it with the
expected output by string equality.

The Python control flow (language check, per-case `try/except`, result-dict
handling, quote stripping, score computation) is embedded directly.  The external
JavaScript engine invoked through `execjs` is not part of the repository; its
per-case outcome is abstracted as an oracle `TestCase → CaseExec`:
either the wrapped program ran and returned its JSON dict (built from the value
of `eval(input)` or from the message of a caught JS error), or the Python `try`
block raised (`execjs` unavailable, `eval`/`json.loads` failure).
-/

namespace CodeTesting

/-- Pydantic model `TestCase`: `input`, `expectedOutput`, optional `description`. -/
structure TestCase where
  input : String
  expectedOutput : String
  description : Option String := none
  deriving DecidableEq

/-- Pydantic model `CodeTestRequest`: `code`, `language`, `testCases`. -/
structure CodeTestRequest where
  code : String
  language : String
  testCases : List TestCase
  deriving DecidableEq

/-- Pydantic model `TestResult`: per-case outcome.  `error` and `input` default
to `None` when omitted at the construction site, exactly as in the source. -/
structure TestResult where
  passed : Bool
  expected : String
  actual : String
  error : Option String := none
  input : Option String := none
  deriving DecidableEq

/-- Pydantic model `CodeTestResponse`.  The Python `score` is a float computed
as `(passed_count / total_tests) * 100`; it is modelled exactly as a rational. -/
structure CodeTestResponse where
  results : List TestResult
  score : ℚ
  totalTests : Nat
  passedTests : Nat
  deriving DecidableEq

/-- The double-quote character, written by code point to keep source strings
free of escapes. -/
def qc : Char := Char.ofNat 34

/-- The single-quote character used in the unsupported-language message. -/
def sq : String := String.singleton (Char.ofNat 39)

/-- Python `str.lower()` as used in `request.language.lower()`.  On the ASCII
language tags that reach this check, per-character lowering agrees with Python. -/
def pyLower (s : String) : String := String.mk (s.data.map Char.toLower)

/-- The f-string
`f"Language '…' is not supported. Only JavaScript is supported in this MVP."`. -/
def unsupportedMessage (language : String) : String :=
  "Language " ++ sq ++ language ++ sq ++
    " is not supported. Only JavaScript is supported in this MVP."

/-- The dictionary obtained from `json.loads(execution_result)`.  The source
reads it with `result_dict.get("success", False)`, `result_dict.get("result", "")`
and `result_dict.get("error", "Unknown error")`, so each key is an optional
field and the defaults are applied at the use sites below. -/
structure ResultDict where
  success : Option Bool
  result : Option String
  error : Option String
  deriving DecidableEq

/-- JavaScript values produced by `eval(input)` after the candidate code ran,
restricted to the shapes the specification exercises (numbers with integral
value, text values, booleans, null). -/
inductive JSValue where
  | num (n : Int)
  | str (s : String)
  | bool (b : Bool)
  | null
  deriving DecidableEq

/-- One escaped character of `JSON.stringify` output: double quote and
backslash get a backslash, the common control characters use their short
escapes, other control characters use `\u00XX`, and everything else is kept. -/
def jsonEscapeChar (c : Char) : List Char :=
  if c = qc then [Char.ofNat 92, qc]
  else if c = Char.ofNat 92 then [Char.ofNat 92, Char.ofNat 92]
  else if c = Char.ofNat 10 then [Char.ofNat 92, 'n']
  else if c = Char.ofNat 9 then [Char.ofNat 92, 't']
  else if c = Char.ofNat 13 then [Char.ofNat 92, 'r']
  else if c.toNat < 32 then
    [Char.ofNat 92, 'u', '0', '0',
     Char.ofNat (if c.toNat / 16 < 10 then 48 + c.toNat / 16 else 87 + c.toNat / 16),
     Char.ofNat (if c.toNat % 16 < 10 then 48 + c.toNat % 16 else 87 + c.toNat % 16)]
  else [c]

/-- Body of a `JSON.stringify` string literal: each character escaped. -/
def jsonEscape (s : String) : String :=
  String.mk (s.data.flatMap jsonEscapeChar)

/-- `JSON.stringify` on the modelled values: numbers print in decimal, text
values come back as a quoted string literal, booleans and null by name. -/
def jsonStringify : JSValue → String
  | JSValue.num n => toString n
  | JSValue.str s => String.mk (qc :: (jsonEscape s).data ++ [qc])
  | JSValue.bool b => if b then "true" else "false"
  | JSValue.null => "null"

/-- Outcome of the wrapped IIFE inside the JS engine: either the candidate code
and the trailing `eval(input)` produced a value, or something in the `try`
block threw and `error.toString()` gave `msg`. -/
inductive JSRun where
  | value (v : JSValue)
  | jsThrow (msg : String)
  deriving DecidableEq

/-- The JSON dict the wrapped code returns: `return \x7bsuccess: true, result\x7d`
with `result = JSON.stringify(eval(input))` on success,
`return \x7bsuccess: false, error: error.toString()\x7d` on a caught JS error. -/
def runToDict : JSRun → ResultDict
  | JSRun.value v => { success := some true, result := some (jsonStringify v), error := none }
  | JSRun.jsThrow msg => { success := some false, result := none, error := some msg }

/-- Per-case outcome at the Python boundary: either `execjs` ran the wrapped
program to completion and `json.loads` parsed its output (`js`), or some step
of the `try` block raised a Python exception with message `msg` (`pyExn`) —
e.g. `execjs.compile` finding no JavaScript runtime. -/
inductive CaseExec where
  | js (r : JSRun)
  | pyExn (msg : String)
  deriving DecidableEq

/-- Lines 83–88 of the source: `actual_output[1:-1]` when the serialized value
starts and ends with a double quote, else unchanged.  Python slicing `[1:-1]`
drops the first and last character. -/
def stripQuotes (s : String) : String :=
  if s.data.head? = some qc ∧ s.data.getLast? = some qc then
    String.mk (s.data.drop 1).dropLast
  else s

/-- Lines 81–106 of the source: build the `TestResult` from the parsed result
dict — on success strip quotes and compare with `expectedOutput`, otherwise
report the error with `actual=""`. -/
def processResult (d : ResultDict) (tc : TestCase) : TestResult :=
  if d.success.getD false then
    let actual_output := stripQuotes (d.result.getD "")
    let passed := actual_output == tc.expectedOutput
    { passed := passed, expected := tc.expectedOutput, actual := actual_output,
      input := some tc.input }
  else
    { passed := false, expected := tc.expectedOutput, actual := "",
      error := some (d.error.getD "Unknown error"), input := some tc.input }

/-- Lines 107–114 of the source: the `except Exception` branch, reporting
`f"Server error: \x7be\x7d"` for the current case. -/
def serverErrorResult (msg : String) (tc : TestCase) : TestResult :=
  { passed := false, expected := tc.expectedOutput, actual := "",
    error := some ("Server error: " ++ msg), input := some tc.input }

/-- The whole loop body for one test case (the `try`/`except` around
lines 69–114), given the oracle outcome for this case. -/
def caseRun (e : CaseExec) (tc : TestCase) : TestResult :=
  match e with
  | CaseExec.js r => processResult (runToDict r) tc
  | CaseExec.pyExn msg => serverErrorResult msg tc

/-- The `for test_case in request.testCases` loop: accumulates the `results`
list in order, counting the passed cases (`passed_count`). -/
def runCases (exec : TestCase → CaseExec) : List TestCase → List TestResult × Nat
  | [] => ([], 0)
  | tc :: rest =>
    let r := caseRun (exec tc) tc
    let p := runCases exec rest
    (r :: p.1, (if r.passed then 1 else 0) + p.2)

/-- The endpoint `test_javascript_code`, parametrized by the oracle `exec`
giving the external JS engine's outcome on each test case.  Mirrors the
source: the lowercased language check short-circuits to a single synthetic
failing result; otherwise all cases run in order and
`score = (passed_count / total_tests) * 100 if total_tests > 0 else 0`. -/
def test_javascript_code (exec : TestCase → CaseExec)
    (request : CodeTestRequest) : CodeTestResponse :=
  if pyLower request.language ≠ "javascript" then
    { results := [{ passed := false, expected := "", actual := "",
                    error := some (unsupportedMessage request.language) }],
      score := 0, totalTests := 1, passedTests := 0 }
  else
    let p := runCases exec request.testCases
    let total_tests := request.testCases.length
    { results := p.1,
      score := if total_tests > 0 then ((p.2 : ℚ) / (total_tests : ℚ)) * 100 else 0,
      totalTests := total_tests,
      passedTests := p.2 }

/-- Parsing a nonempty all-digit list of characters as a decimal number, as
JavaScript `eval` does on a numeral. -/
def digitsToNat (l : List Char) : Nat :=
  l.foldl (fun acc c => 10 * acc + (c.toNat - 48)) 0

/-- The JavaScript engine's `eval` of the bound input text, on the literal
shapes the specification discusses (the engine itself is external to the
repository).  The Python side binds `input` to the JSON-encoded test-case
input string, and the wrapper's terminal expression `eval(input)` re-parses
that text: a nonempty digit string is a numeral, a text wrapped in double
quotes is a string literal. -/
def evalLiteral (s : String) : Option JSValue :=
  if s.data ≠ [] ∧ s.data.all Char.isDigit then
    some (JSValue.num (digitsToNat s.data))
  else if 2 ≤ s.data.length ∧ s.data.head? = some qc ∧ s.data.getLast? = some qc then
    some (JSValue.str (String.mk (s.data.drop 1).dropLast))
  else none

/-! Concrete fixtures used by the witness theorems. -/

/-- An oracle under which every case evaluates to the JS number 4. -/
def oracle4 : TestCase → CaseExec := fun _ => CaseExec.js (JSRun.value (JSValue.num 4))

/-- An oracle where the case with input `"throw"` raises a JS `TypeError`, the
case with input `"boom"` makes the Python `try` block raise, and every other
case evaluates to the JS number 4. -/
def oracleMix : TestCase → CaseExec := fun tc =>
  if tc.input = "throw" then CaseExec.js (JSRun.jsThrow "TypeError: x is not a function")
  else if tc.input = "boom" then CaseExec.pyExn "json decode failure"
  else CaseExec.js (JSRun.value (JSValue.num 4))

/-- A three-case JavaScript request; under `oracle4` the middle case fails. -/
def req3 : CodeTestRequest :=
  { code := "const f = (x) => x", language := "javascript",
    testCases := [{ input := "4", expectedOutput := "4" },
                  { input := "5", expectedOutput := "5" },
                  { input := "6", expectedOutput := "4" }] }

/-- A three-case JavaScript request whose middle case has input `"throw"`. -/
def reqMix : CodeTestRequest :=
  { code := "const f = (x) => x", language := "javascript",
    testCases := [{ input := "4", expectedOutput := "4" },
                  { input := "throw", expectedOutput := "5" },
                  { input := "6", expectedOutput := "4" }] }

/-- A request declaring an unsupported language, with three test cases. -/
def reqPy : CodeTestRequest :=
  { code := "print(1)", language := "Python",
    testCases := [{ input := "4", expectedOutput := "4" },
                  { input := "5", expectedOutput := "5" },
                  { input := "6", expectedOutput := "4" }] }

/-- A request whose language tag is mixed-case `"JavaScript"`. -/
def reqJS : CodeTestRequest :=
  { code := "const f = (x) => x", language := "JavaScript",
    testCases := [{ input := "4", expectedOutput := "4" },
                  { input := "5", expectedOutput := "4" }] }

/-! Helper lemmas characterising the two branches of the endpoint and the
per-case results. -/

/-- On the supported language, the endpoint returns the looped results,
the case count and the guarded percentage. -/
theorem test_supported (exec : TestCase → CaseExec) (request : CodeTestRequest)
    (h : pyLower request.language = "javascript") :
    test_javascript_code exec request =
      { results := (runCases exec request.testCases).1,
        score := if request.testCases.length > 0 then
            (((runCases exec request.testCases).2 : ℚ) / (request.testCases.length : ℚ)) * 100
          else 0,
        totalTests := request.testCases.length,
        passedTests := (runCases exec request.testCases).2 } := by
  unfold test_javascript_code
  rw [if_neg (not_not_intro h)]

/-- On an unsupported language, the endpoint returns the synthetic response. -/
theorem test_unsupported (exec : TestCase → CaseExec) (request : CodeTestRequest)
    (h : pyLower request.language ≠ "javascript") :
    test_javascript_code exec request =
      { results := [{ passed := false, expected := "", actual := "",
                      error := some (unsupportedMessage request.language), input := none }],
        score := 0, totalTests := 1, passedTests := 0 } := by
  unfold test_javascript_code
  rw [if_pos h]

/-- The loop produces exactly the per-case results, in input order. -/
theorem runCases_fst (exec : TestCase → CaseExec) (l : List TestCase) :
    (runCases exec l).1 = l.map fun tc => caseRun (exec tc) tc := by
  induction l with
  | nil => rfl
  | cons tc rest ih => simp [runCases, ih]

/-- The loop's counter equals the number of produced results that passed. -/
theorem runCases_snd (exec : TestCase → CaseExec) (l : List TestCase) :
    (runCases exec l).2 = List.countP (fun r => r.passed) (runCases exec l).1 := by
  induction l with
  | nil => rfl
  | cons tc rest ih =>
    simp [runCases, ih, List.countP_cons]
    omega

/-- A successful execution yields the quote-stripped value compared with the
expected output, and no error. -/
theorem caseRun_value (v : JSValue) (tc : TestCase) :
    caseRun (CaseExec.js (JSRun.value v)) tc =
      { passed := stripQuotes (jsonStringify v) == tc.expectedOutput,
        expected := tc.expectedOutput, actual := stripQuotes (jsonStringify v),
        error := none, input := some tc.input } := rfl

/-- A caught JS error yields a failing result carrying the JS error message. -/
theorem caseRun_jsThrow (msg : String) (tc : TestCase) :
    caseRun (CaseExec.js (JSRun.jsThrow msg)) tc =
      { passed := false, expected := tc.expectedOutput, actual := "",
        error := some msg, input := some tc.input } := rfl

/-- A Python-side exception yields a failing result with the prefixed message. -/
theorem caseRun_pyExn (msg : String) (tc : TestCase) :
    caseRun (CaseExec.pyExn msg) tc =
      { passed := false, expected := tc.expectedOutput, actual := "",
        error := some ("Server error: " ++ msg), input := some tc.input } := rfl

/-- C1: for every request whose language is the supported one, the results list
has exactly one `TestResult` per submitted test case in input order (it is the
pointwise image of `testCases`), `totalTests` is the number of submitted cases,
`len(results) = totalTests`, and `passedTests` counts the results whose
`passed` field is true. -/
theorem c1_one_result_per_case_in_order (exec : TestCase → CaseExec)
    (request : CodeTestRequest) (h : pyLower request.language = "javascript") :
    (test_javascript_code exec request).results
        = request.testCases.map (fun tc => caseRun (exec tc) tc)
    ∧ (test_javascript_code exec request).results.length = request.testCases.length
    ∧ (test_javascript_code exec request).totalTests = request.testCases.length
    ∧ (test_javascript_code exec request).passedTests
        = List.countP (fun r => r.passed) (test_javascript_code exec request).results := by
  rw [test_supported exec request h]
  refine ⟨runCases_fst exec request.testCases, ?_, rfl, runCases_snd exec request.testCases⟩
  rw [runCases_fst exec request.testCases]
  exact List.length_map _ _

/-- Witness for C1 at a concrete three-case request where one case fails. -/
theorem c1_witness :
    (test_javascript_code oracle4 req3).results
        = req3.testCases.map (fun tc => caseRun (oracle4 tc) tc)
    ∧ (test_javascript_code oracle4 req3).results.length = req3.testCases.length
    ∧ (test_javascript_code oracle4 req3).totalTests = req3.testCases.length
    ∧ (test_javascript_code oracle4 req3).passedTests
        = List.countP (fun r => r.passed) (test_javascript_code oracle4 req3).results :=
  c1_one_result_per_case_in_order oracle4 req3 (by decide)

/-- C2: for every request, `score = 100 * passedTests / totalTests` (exactly,
in ℚ) whenever `totalTests > 0`, and `score = 0` when `totalTests = 0`; the
division is guarded, and the unsupported-language branch (`totalTests = 1`,
`passedTests = 0`, `score = 0`) satisfies the same formula. -/
theorem c2_score_formula (exec : TestCase → CaseExec) (request : CodeTestRequest) :
    (0 < (test_javascript_code exec request).totalTests →
      (test_javascript_code exec request).score
        = 100 * ((test_javascript_code exec request).passedTests : ℚ)
            / ((test_javascript_code exec request).totalTests : ℚ))
    ∧ ((test_javascript_code exec request).totalTests = 0 →
      (test_javascript_code exec request).score = 0) := by
  by_cases h : pyLower request.language = "javascript"
  · rw [test_supported exec request h]
    dsimp only
    constructor
    · intro hpos
      rw [if_pos hpos]
      ring
    · intro h0
      simp [h0]
  · rw [test_unsupported exec request h]
    dsimp only
    exact ⟨fun _ => by norm_num, fun h0 => absurd h0 one_ne_zero⟩

/-- Witness for C2 at a concrete request with 3 cases, 2 of them passing. -/
theorem c2_witness :
    0 < (test_javascript_code oracle4 req3).totalTests
    ∧ (test_javascript_code oracle4 req3).score
        = 100 * ((test_javascript_code oracle4 req3).passedTests : ℚ)
            / ((test_javascript_code oracle4 req3).totalTests : ℚ) :=
  ⟨by decide, (c2_score_formula oracle4 req3).1 (by decide)⟩

/-- C3: the evaluate operation never raises past its boundary — it is a total
function into `CodeTestResponse`, the result reported at position `i` is
determined by that case alone (so one case's failure cannot prevent any other
case from being evaluated and reported), and both a Python-side exception and
a JS runtime error in one case are absorbed into that case's `TestResult`. -/
theorem c3_failures_absorbed_per_case (exec : TestCase → CaseExec)
    (request : CodeTestRequest) (h : pyLower request.language = "javascript") :
    (∀ i : Nat, (test_javascript_code exec request).results[i]?
        = (request.testCases[i]?).map fun tc => caseRun (exec tc) tc)
    ∧ (∀ msg tc, caseRun (CaseExec.pyExn msg) tc
        = { passed := false, expected := tc.expectedOutput, actual := "",
            error := some ("Server error: " ++ msg), input := some tc.input })
    ∧ (∀ msg tc, caseRun (CaseExec.js (JSRun.jsThrow msg)) tc
        = { passed := false, expected := tc.expectedOutput, actual := "",
            error := some msg, input := some tc.input }) := by
  refine ⟨?_, fun msg tc => rfl, fun msg tc => rfl⟩
  intro i
  rw [test_supported exec request h]
  dsimp only
  rw [runCases_fst exec request.testCases]
  exact List.getElem?_map (fun tc => caseRun (exec tc) tc) request.testCases i

/-- Witness for C3 at a request whose middle case throws in JS. -/
theorem c3_witness :
    (∀ i : Nat, (test_javascript_code oracleMix reqMix).results[i]?
        = (reqMix.testCases[i]?).map fun tc => caseRun (oracleMix tc) tc)
    ∧ (∀ msg tc, caseRun (CaseExec.pyExn msg) tc
        = { passed := false, expected := tc.expectedOutput, actual := "",
            error := some ("Server error: " ++ msg), input := some tc.input })
    ∧ (∀ msg tc, caseRun (CaseExec.js (JSRun.jsThrow msg)) tc
        = { passed := false, expected := tc.expectedOutput, actual := "",
            error := some msg, input := some tc.input }) :=
  c3_failures_absorbed_per_case oracleMix reqMix (by decide)

/-- C4: a request whose declared language does not lowercase to
`"javascript"` short-circuits to exactly one synthetic failing `TestResult`
carrying the unsupported-language message, with `totalTests = 1`,
`passedTests = 0` and `score = 0`, regardless of the submitted test cases. -/
theorem c4_unsupported_language_synthetic_result (exec : TestCase → CaseExec)
    (request : CodeTestRequest) (h : pyLower request.language ≠ "javascript") :
    (test_javascript_code exec request).results
        = [{ passed := false, expected := "", actual := "",
             error := some (unsupportedMessage request.language), input := none }]
    ∧ (test_javascript_code exec request).totalTests = 1
    ∧ (test_javascript_code exec request).passedTests = 0
    ∧ (test_javascript_code exec request).score = 0 := by
  rw [test_unsupported exec request h]
  exact ⟨rfl, rfl, rfl, rfl⟩

/-- Witness for C4 at a `"Python"` request carrying three test cases. -/
theorem c4_witness :
    (test_javascript_code oracle4 reqPy).results
        = [{ passed := false, expected := "", actual := "",
             error := some (unsupportedMessage reqPy.language), input := none }]
    ∧ (test_javascript_code oracle4 reqPy).totalTests = 1
    ∧ (test_javascript_code oracle4 reqPy).passedTests = 0
    ∧ (test_javascript_code oracle4 reqPy).score = 0 :=
  c4_unsupported_language_synthetic_result oracle4 reqPy (by decide)

/-- C5: a test case whose candidate code raises a runtime error inside the JS
wrapper is absorbed by the per-case failure boundary: the result has
`passed = false`, `actual = ""` and `error` set to the captured message.  The
hypothesis `msg ≠ ""` records that `error.toString()` of an actual JavaScript
runtime error (syntax error, thrown exception, type error) is a non-empty
description, so the reported error message is non-empty. -/
theorem c5_runtime_error_absorbed (msg : String) (tc : TestCase) (h : msg ≠ "") :
    caseRun (CaseExec.js (JSRun.jsThrow msg)) tc
      = { passed := false, expected := tc.expectedOutput, actual := "",
          error := some msg, input := some tc.input }
    ∧ (caseRun (CaseExec.js (JSRun.jsThrow msg)) tc).error ≠ none
    ∧ msg ≠ "" := by
  refine ⟨rfl, ?_, h⟩
  rw [caseRun_jsThrow msg tc]
  simp

/-- Witness for C5 at a concrete `TypeError` message. -/
theorem c5_witness :
    caseRun (CaseExec.js (JSRun.jsThrow "TypeError: x is not a function"))
        { input := "4", expectedOutput := "4" }
      = { passed := false, expected := "4", actual := "",
          error := some "TypeError: x is not a function", input := some "4" }
    ∧ (caseRun (CaseExec.js (JSRun.jsThrow "TypeError: x is not a function"))
        { input := "4", expectedOutput := "4" }).error ≠ none
    ∧ "TypeError: x is not a function" ≠ "" :=
  c5_runtime_error_absorbed "TypeError: x is not a function"
    { input := "4", expectedOutput := "4" } (by decide)

/-- C6: when the produced value is a text value whose serialization needs no
escapes, `JSON.stringify` yields a quoted literal, the normalizer strips
exactly that one pair of surrounding quotes, and the case passes against an
`expectedOutput` written as the bare text. -/
theorem c6_quote_stripping (s : String) (tc : TestCase)
    (hesc : jsonEscape s = s) (hexp : tc.expectedOutput = s) :
    stripQuotes (jsonStringify (JSValue.str s)) = s
    ∧ caseRun (CaseExec.js (JSRun.value (JSValue.str s))) tc
        = { passed := true, expected := tc.expectedOutput, actual := s,
            error := none, input := some tc.input } := by
  have hs : stripQuotes (jsonStringify (JSValue.str s)) = s := by
    rw [jsonStringify, hesc, stripQuotes, if_pos]
    · show String.mk ((qc :: (s.data ++ [qc])).drop 1).dropLast = s
      rw [List.drop_one, List.tail_cons, List.dropLast_concat]
    · constructor
      · rfl
      · show (qc :: (s.data ++ [qc])).getLast? = some qc
        rw [← List.cons_append, List.getLast?_concat]
  refine ⟨hs, ?_⟩
  rw [caseRun_value, hs, hexp]
  simp

/-- Witness for C6 at the produced text value `hello` against the bare
expected text `hello`. -/
theorem c6_witness :
    stripQuotes (jsonStringify (JSValue.str "hello")) = "hello"
    ∧ caseRun (CaseExec.js (JSRun.value (JSValue.str "hello")))
        { input := "x", expectedOutput := "hello" }
      = { passed := true, expected := "hello", actual := "hello",
          error := none, input := some "x" } := by
  have h := c6_quote_stripping "hello" { input := "x", expectedOutput := "hello" }
    (by decide) (by decide)
  exact h

/-- C7: the test-case input is re-parsed as source-language expression text by
the wrapper's terminal `eval(input)` (the Python side binds `input` to the
JSON-encoded input text): any nonempty all-digit input evaluates to the JS
number with that decimal value — not to the text value `JSValue.str input` —
and the concrete case with input `"4"`, expected output `4`, whose code
evaluates the bound input to the numeral 4, passes. -/
theorem c7_input_reparsed_as_expression (tc : TestCase)
    (hne : tc.input.data ≠ []) (hdig : tc.input.data.all Char.isDigit = true) :
    evalLiteral tc.input = some (JSValue.num (digitsToNat tc.input.data))
    ∧ evalLiteral tc.input ≠ some (JSValue.str tc.input)
    ∧ evalLiteral "4" = some (JSValue.num 4)
    ∧ caseRun (CaseExec.js (JSRun.value (JSValue.num 4)))
        { input := "4", expectedOutput := "4" }
      = { passed := true, expected := "4", actual := "4",
          error := none, input := some "4" } := by
  have h1 : evalLiteral tc.input = some (JSValue.num (digitsToNat tc.input.data)) := by
    rw [evalLiteral, if_pos ⟨hne, hdig⟩]
  refine ⟨h1, ?_, by decide, by decide⟩
  rw [h1]
  simp

/-- Witness for C7 at the input `"4"`. -/
theorem c7_witness :
    evalLiteral "4" = some (JSValue.num (digitsToNat "4".data))
    ∧ evalLiteral "4" ≠ some (JSValue.str "4")
    ∧ evalLiteral "4" = some (JSValue.num 4)
    ∧ caseRun (CaseExec.js (JSRun.value (JSValue.num 4)))
        { input := "4", expectedOutput := "4" }
      = { passed := true, expected := "4", actual := "4",
          error := none, input := some "4" } :=
  c7_input_reparsed_as_expression { input := "4", expectedOutput := "4" }
    (by decide) (by decide)

/-- C8 counterexample: when the `execjs` runtime cannot be constructed (the
Python `try` block raises), the endpoint does not surface a fatal environment
error — it silently converts the failure into an ordinary failing test case
inside a normal structured response, contradicting the claim. -/
theorem c8_counterexample :
    (test_javascript_code
        (fun _ => CaseExec.pyExn "Could not find an available JavaScript runtime.")
        { code := "const f = (x) => x", language := "javascript",
          testCases := [{ input := "4", expectedOutput := "4" }] }).results
      = [{ passed := false, expected := "4", actual := "",
           error := some "Server error: Could not find an available JavaScript runtime.",
           input := some "4" }]
    ∧ (test_javascript_code
        (fun _ => CaseExec.pyExn "Could not find an available JavaScript runtime.")
        { code := "const f = (x) => x", language := "javascript",
          testCases := [{ input := "4", expectedOutput := "4" }] }).totalTests = 1
    ∧ (test_javascript_code
        (fun _ => CaseExec.pyExn "Could not find an available JavaScript runtime.")
        { code := "const f = (x) => x", language := "javascript",
          testCases := [{ input := "4", expectedOutput := "4" }] }).passedTests = 0 := by
  refine ⟨by decide, by decide, by decide⟩

/-- C8 amended: an interpreter-construction failure (or any other Python-side
exception while running a case) is caught by the per-case boundary and
reported as a failing `TestResult` whose error message carries the
`"Server error: "` prefix distinguishing harness faults from candidate-code
faults; it is not surfaced as a fatal error. -/
theorem c8_amended_context_failure_reported (msg : String) (tc : TestCase) :
    caseRun (CaseExec.pyExn msg) tc
      = { passed := false, expected := tc.expectedOutput, actual := "",
          error := some ("Server error: " ++ msg), input := some tc.input } := rfl

/-- C9: the language check lowercases the tag before comparing, so
`"JavaScript"` and `"JAVASCRIPT"` lower to the supported value, and any
request whose lowercased language is `"javascript"` is not short-circuited:
every declared test case is evaluated, one result per case in order. -/
theorem c9_language_check_case_insensitive (exec : TestCase → CaseExec)
    (request : CodeTestRequest) (h : pyLower request.language = "javascript") :
    pyLower "JavaScript" = "javascript"
    ∧ pyLower "JAVASCRIPT" = "javascript"
    ∧ (test_javascript_code exec request).results
        = request.testCases.map (fun tc => caseRun (exec tc) tc)
    ∧ (test_javascript_code exec request).totalTests = request.testCases.length := by
  rw [test_supported exec request h]
  exact ⟨by decide, by decide, runCases_fst exec request.testCases, rfl⟩

/-- Witness for C9 at a request declaring the language `"JavaScript"`. -/
theorem c9_witness :
    pyLower "JavaScript" = "javascript"
    ∧ pyLower "JAVASCRIPT" = "javascript"
    ∧ (test_javascript_code oracle4 reqJS).results
        = reqJS.testCases.map (fun tc => caseRun (oracle4 tc) tc)
    ∧ (test_javascript_code oracle4 reqJS).totalTests = reqJS.testCases.length :=
  c9_language_check_case_insensitive oracle4 reqJS (by decide)

/-- C10: a per-case result carries `error = none` exactly when the execution
of the candidate code succeeded (the wrapper returned a value); a case whose
execution succeeds but whose normalized output differs from the expected
output yields `passed = false`, `error = none` and `actual` set to the
normalized output. -/
theorem c10_error_iff_execution_failed (e : CaseExec) (tc : TestCase) :
    ((caseRun e tc).error = none ↔ ∃ v, e = CaseExec.js (JSRun.value v))
    ∧ ∀ v : JSValue, stripQuotes (jsonStringify v) ≠ tc.expectedOutput →
        caseRun (CaseExec.js (JSRun.value v)) tc
          = { passed := false, expected := tc.expectedOutput,
              actual := stripQuotes (jsonStringify v), error := none,
              input := some tc.input } := by
  constructor
  · constructor
    · intro he
      cases e with
      | js r =>
        cases r with
        | value v => exact ⟨v, rfl⟩
        | jsThrow m => rw [caseRun_jsThrow m tc] at he; cases he
      | pyExn m => rw [caseRun_pyExn m tc] at he; cases he
    · rintro ⟨v, rfl⟩
      rfl
  · intro v hv
    rw [caseRun_value v tc]
    have hb : (stripQuotes (jsonStringify v) == tc.expectedOutput) = false :=
      beq_eq_false_iff_ne.mpr hv
    rw [hb]

/-- Witness for C10 at a successful execution whose value `5` mismatches the
expected `4`. -/
theorem c10_witness :
    ((caseRun (CaseExec.js (JSRun.value (JSValue.num 5)))
        { input := "5", expectedOutput := "4" }).error = none
      ↔ ∃ v, CaseExec.js (JSRun.value (JSValue.num 5)) = CaseExec.js (JSRun.value v))
    ∧ caseRun (CaseExec.js (JSRun.value (JSValue.num 5)))
        { input := "5", expectedOutput := "4" }
      = { passed := false, expected := "4", actual := "5",
          error := none, input := some "5" } :=
  ⟨(c10_error_iff_execution_failed (CaseExec.js (JSRun.value (JSValue.num 5)))
      { input := "5", expectedOutput := "4" }).1,
   ((c10_error_iff_execution_failed (CaseExec.js (JSRun.value (JSValue.num 5)))
      { input := "5", expectedOutput := "4" }).2 (JSValue.num 5) (by decide)).trans
     (by decide)⟩

end CodeTesting
